import Mathlib

/-!
Shallow embedding of the ProtectAI backend (fingerprinting, exact and
similarity search, fingerprint store, and the analyze pipeline) together
with theorems settling the specification claims against it.

Source files embedded: backend/fingerprint.py, backend/search.py,
backend/db.py, backend/main.py.
-/

namespace ProtectAI

/-- A byte sequence (the flattened grayscale pixel buffer that
`np.array(img).flatten().tobytes()` produces). Each element is one byte. -/
abbrev Bytes := List Nat

/-- Result of `PIL.Image.open(path).convert("L").resize((128,128))` on an
input: either it decodes to a pixel buffer, or PIL raises an exception with
message `msg`. Decoding, grayscale conversion and resizing are external
deterministic library operations; they are abstracted into the stored
pixel buffer, so byte-identical inputs are the same `ImageInput` value. -/
inductive ImageInput where
  | valid (pixels : Bytes)
  | invalid (msg : String)
deriving DecidableEq

/-- Hex digit characters: `'0'..'9'` for 0-9, `'a'..'f'` for 10-15,
as produced by Python's lowercase `hexdigest()`. -/
def hexDigitChar (d : Nat) : Char :=
  if d < 10 then Char.ofNat (48 + d) else Char.ofNat (87 + d)

/-- Fixed-width big-endian hexadecimal rendering (`n` digits). -/
def toHexFixed : Nat → Nat → List Char
  | 0, _ => []
  | n + 1, v => toHexFixed n (v / 16) ++ [hexDigitChar (v % 16)]

/-- Models the numeric value of `hashlib.sha256(bs).digest()`: a
deterministic function from byte sequences to 256-bit numbers. The actual
SHA-256 compression function is an external library and is abstracted by a
simple deterministic fold; no claim depends on cryptographic properties,
only on determinism and on the 64-lowercase-hex output format. -/
def sha256abs (bs : Bytes) : Nat :=
  bs.foldl (fun a b => (a * 1099511628211 + b + 1) % 2 ^ 256) 7

/-- Models `hashlib.sha256(bs).hexdigest()`: 64 lowercase hex characters. -/
def sha256hex (bs : Bytes) : String :=
  String.mk (toHexFixed 64 (sha256abs bs))

/-- Source `backend/fingerprint.py`, `generate_fingerprint`: open the image,
convert to grayscale, resize to 128x128, hash the pixel bytes. On an
exception: re-raise when `raise_error` is true (modelled as
`Except.error`), otherwise return the error string in-band (`Except.ok`
models a normal Python `return`). -/
def generate_fingerprint (img : ImageInput) (raiseError : Bool) : Except String String :=
  match img with
  | .valid pixels => .ok (sha256hex pixels)
  | .invalid msg =>
      if raiseError then .error msg
      else .ok ("Error generating fingerprint: " ++ msg)

/-- The string returned by `generate_fingerprint` when called with the
default `raise_error=False` (as every caller in the repository does). -/
def gfpStr : ImageInput → String
  | .valid pixels => sha256hex pixels
  | .invalid msg => "Error generating fingerprint: " ++ msg

/-- With `raise_error=False` the function always returns normally, and the
returned string is `gfpStr`. -/
theorem generate_fingerprint_default (img : ImageInput) :
    generate_fingerprint img false = .ok (gfpStr img) := by
  cases img <;> rfl

/-- Prefix test `needle.isPrefixOf hay` at the character-list level
(Python `str.startswith`). -/
def listPrefixOf : List Char → List Char → Bool
  | [], _ => true
  | _ :: _, [] => false
  | a :: as, b :: bs => a == b && listPrefixOf as bs

/-- Substring containment at the character-list level
(Python `needle in hay`). -/
def listContains : List Char → List Char → Bool
  | [], needle => listPrefixOf needle []
  | c :: cs, needle => listPrefixOf needle (c :: cs) || listContains cs needle

/-- Python `hay.startswith(needle)`. -/
def strStartsWith (hay needle : String) : Bool :=
  listPrefixOf needle.data hay.data

/-- Python `needle in hay` (substring test). -/
def strContains (hay needle : String) : Bool :=
  listContains hay.data needle.data

theorem toHexFixed_length (n v : Nat) : (toHexFixed n v).length = n := by
  induction n generalizing v with
  | zero => rfl
  | succ n ih => simp [toHexFixed, ih]

theorem toHexFixed_mem (n v : Nat) (c : Char) (h : c ∈ toHexFixed n v) :
    ∃ d, d < 16 ∧ c = hexDigitChar d := by
  induction n generalizing v with
  | zero => simp [toHexFixed] at h
  | succ n ih =>
      simp only [toHexFixed, List.mem_append, List.mem_singleton] at h
      rcases h with h | h
      · exact ih _ h
      · exact ⟨v % 16, Nat.mod_lt _ (by omega), h⟩

theorem hexDigitChar_ne_E (d : Nat) (hd : d < 16) :
    (('E' == hexDigitChar d) = false) ∧ ((hexDigitChar d == 'E') = false) := by
  revert hd; revert d; decide

/-- No character list made of hex digits has `'E' :: rest` as a prefix. -/
theorem listPrefixOf_E_of_hex (l : List Char)
    (hl : ∀ c ∈ l, ∃ d, d < 16 ∧ c = hexDigitChar d) (rest : List Char) :
    listPrefixOf ('E' :: rest) l = false := by
  cases l with
  | nil => rfl
  | cons c cs =>
      obtain ⟨d, hd, hc⟩ := hl c (List.mem_cons_self c cs)
      simp only [listPrefixOf, hc, (hexDigitChar_ne_E d hd).1, Bool.false_and]

/-- No character list made of hex digits contains `'E' :: rest`. -/
theorem listContains_E_of_hex (l : List Char)
    (hl : ∀ c ∈ l, ∃ d, d < 16 ∧ c = hexDigitChar d) (rest : List Char) :
    listContains l ('E' :: rest) = false := by
  induction l with
  | nil => rfl
  | cons c cs ih =>
      have hcs : ∀ x ∈ cs, ∃ d, d < 16 ∧ x = hexDigitChar d :=
        fun x hx => hl x (List.mem_cons_of_mem c hx)
      simp only [listContains, listPrefixOf_E_of_hex (c :: cs) hl rest,
        ih hcs, Bool.or_self]

/-- A digest never contains the substring `"Error"`; hence the source's
`if "Error" in query_fingerprint` test never fires on a valid digest. -/
theorem sha256hex_not_contains_Error (bs : Bytes) :
    strContains (sha256hex bs) "Error" = false := by
  have : "Error".data = 'E' :: ['r', 'r', 'o', 'r'] := rfl
  rw [strContains, sha256hex, this]
  exact listContains_E_of_hex _ (fun c hc => toHexFixed_mem _ _ c hc) _

/-- A digest never starts with `"Error"`; hence `main.py`'s
`fingerprint.startswith("Error")` test never fires on a valid digest. -/
theorem sha256hex_not_startsWith_Error (bs : Bytes) :
    strStartsWith (sha256hex bs) "Error" = false := by
  have : "Error".data = 'E' :: ['r', 'r', 'o', 'r'] := rfl
  rw [strStartsWith, this, sha256hex]
  exact listPrefixOf_E_of_hex _ (fun c hc => toHexFixed_mem _ _ c hc) _

/-- The fingerprint error string always starts with `"Error"`. -/
theorem errString_startsWith_Error (msg : String) :
    strStartsWith ("Error generating fingerprint: " ++ msg) "Error" = true := by
  rw [strStartsWith, String.data_append]
  rfl

/-- The fingerprint error string always starts with the full sentinel
prefix `"Error generating fingerprint: "`. -/
theorem errString_startsWith_full (msg : String) :
    strStartsWith ("Error generating fingerprint: " ++ msg)
      "Error generating fingerprint: " = true := by
  rw [strStartsWith, String.data_append]
  induction ("Error generating fingerprint: ").data with
  | nil => rfl
  | cons c cs ih => simpa [listPrefixOf] using ih

/-- A digest is never equal to a fingerprint error string. -/
theorem sha256hex_ne_errString (bs : Bytes) (msg : String) :
    sha256hex bs ≠ "Error generating fingerprint: " ++ msg := by
  intro h
  have h1 := sha256hex_not_startsWith_Error bs
  rw [h, errString_startsWith_Error] at h1
  exact Bool.true_eq_false.mp h1

/-- Result dictionary of `search_image_in_dataset`: either
`{"error": msg}` or `{"query": ..., "matches": [...]}`. The two shapes are
distinct constructors, mirroring the two distinct dict shapes returned. -/
inductive SearchResult where
  | error (msg : String)
  | success (query : String) (matchList : List String)
deriving DecidableEq

/-- Source `backend/search.py`, `search_image_in_dataset`: fingerprint the query
(with the default `raise_error=False`, so the result is the `gfpStr`
string), return an error dict if the fingerprint string contains
`"Error"` or if the dataset folder does not exist; otherwise compare every
regular file of the folder (in `os.listdir` enumeration order, given here
as `listing`, already restricted to regular files as the `os.path.isfile`
guard does) against the query fingerprint, collecting matching names in
enumeration order, and substitute the sentinel `["No matches found"]` for
an empty match list. `queryName` is `os.path.basename(image_path)`. -/
def search_image_in_dataset (queryName : String) (img : ImageInput)
    (folderExists : Bool) (folder : String)
    (listing : List (String × ImageInput)) : SearchResult :=
  let qfp := gfpStr img
  if strContains qfp "Error" then .error qfp
  else if !folderExists then
    .error ("Dataset folder \x27" ++ folder ++ "\x27 not found.")
  else
    let ms := (listing.filter (fun e => gfpStr e.2 == qfp)).map (fun e => e.1)
    .success queryName (if ms.isEmpty then ["No matches found"] else ms)

/-- Number of set bits, computed with structural fuel so that it reduces
in the kernel (`popcountAux n n` with fuel `n ≥ n` is exact). -/
def popcountAux : Nat → Nat → Nat
  | 0, _ => 0
  | fuel + 1, n => if n = 0 then 0 else n % 2 + popcountAux fuel (n / 2)

/-- Number of set bits of a natural number. -/
def popcount (n : Nat) : Nat := popcountAux n n

theorem popcountAux_eq_zero (fuel n : Nat) (hn : n ≤ fuel)
    (h : popcountAux fuel n = 0) : n = 0 := by
  induction fuel generalizing n with
  | zero => omega
  | succ fuel ih =>
      by_cases h0 : n = 0
      · exact h0
      · rw [popcountAux, if_neg h0] at h
        have h2 : n % 2 = 0 := by omega
        have h3 : popcountAux fuel (n / 2) = 0 := by omega
        have h4 : n / 2 ≤ fuel := by omega
        have h5 := ih (n / 2) h4 h3
        omega

theorem popcount_eq_zero_iff (n : Nat) : popcount n = 0 ↔ n = 0 := by
  constructor
  · exact popcountAux_eq_zero n n (Nat.le_refl n)
  · intro h; subst h; rfl

/-- One row of `db.get_fingerprints()` as consumed by `search_similar`:
`{'filename': ..., 'hash_value': ...}`. The hash string is represented by
the numeric value of its bits (`imagehash.hex_to_hash` parses hex into a
fixed-length bit array; Hamming distance depends only on that bit
content, modelled as a natural number). -/
structure FPEntry where
  filename : String
  hash_value : Nat
deriving DecidableEq

/-- One entry of `search_similar`'s result list:
`{"filename": ..., "hash": ..., "distance": ...}`. -/
structure SimMatch where
  filename : String
  hash : Nat
  distance : Nat
deriving DecidableEq

/-- Hamming distance between two hashes: `hex_to_hash(q) - hex_to_hash(h)`
counts differing bits, i.e. the popcount of the bitwise XOR. -/
def hamming (q h : Nat) : Nat := popcount (Nat.xor q h)

/-- Source `backend/search.py`, `search_similar`: for each stored fingerprint in
iteration order, compute the Hamming distance to the query and keep the
entry when `distance <= threshold`. No sorting is applied. -/
def search_similar (hash_value : Nat) (threshold : Nat)
    (all_fingerprints : List FPEntry) : List SimMatch :=
  (all_fingerprints.filter
      (fun fp => decide (hamming hash_value fp.hash_value ≤ threshold))).map
    (fun fp => ⟨fp.filename, fp.hash_value, hamming hash_value fp.hash_value⟩)

/-- The result entry that `search_similar` builds for candidate `c`. -/
def mkSimMatch (q : Nat) (c : FPEntry) : SimMatch :=
  ⟨c.filename, c.hash_value, hamming q c.hash_value⟩

/-- One row of the `fingerprints` table of `backend/db.py`:
`id` (integer primary key), `filename` (unique), `hash_value`. -/
structure FPRecord where
  id : Nat
  filename : String
  hash_value : String
deriving DecidableEq

/-- State of the SQLite store: the rows in insertion order, plus the next
auto-increment primary key value. -/
structure Store where
  nextId : Nat
  records : List FPRecord
deriving DecidableEq

/-- The store after `init_db` on a fresh database: an empty table. -/
def emptyStore : Store := ⟨1, []⟩

/-- Update the first record with the given filename (what
`session.query(...).filter_by(filename=...).first()` followed by an
assignment to `hash_value` and `commit()` does). -/
def updateFirst : List FPRecord → String → String → List FPRecord
  | [], _, _ => []
  | r :: rs, fn, hv =>
      if r.filename == fn then { r with hash_value := hv } :: rs
      else r :: updateFirst rs fn hv

/-- Source `backend/db.py`, `save_fingerprint`: insert a new row; the unique
constraint on `filename` raises `IntegrityError` exactly when a row with
that filename already exists, in which case the session is rolled back
and the existing row's `hash_value` is updated in place. -/
def save_fingerprint (s : Store) (filename hash_value : String) : Store :=
  if s.records.any (fun r => r.filename == filename) then
    { s with records := updateFirst s.records filename hash_value }
  else
    { nextId := s.nextId + 1,
      records := s.records ++ [⟨s.nextId, filename, hash_value⟩] }

/-- Remove the first record with the given filename. -/
def removeFirst : List FPRecord → String → List FPRecord
  | [], _ => []
  | r :: rs, fn => if r.filename == fn then rs else r :: removeFirst rs fn

/-- Source `backend/db.py`, `delete_fingerprint`: delete the first row matching
the filename if present, returning whether a row was deleted. -/
def delete_fingerprint (s : Store) (filename : String) : Store × Bool :=
  if s.records.any (fun r => r.filename == filename) then
    ({ s with records := removeFirst s.records filename }, true)
  else (s, false)

/-- Source `backend/db.py`, `count_fingerprints`: row count of the table. -/
def count_fingerprints (s : Store) : Nat := s.records.length

/-- Source `backend/db.py`, `get_fingerprint_by_filename`: first row matching. -/
def get_fingerprint_by_filename (s : Store) (filename : String) : Option FPRecord :=
  s.records.find? (fun r => r.filename == filename)

/-- The uniqueness invariant enforced by the `unique=True` constraint on
`filename`: no two rows share a filename. -/
def Inv (s : Store) : Prop := (s.records.map FPRecord.filename).Nodup

/-- At most one stored record per key. -/
def AtMostOne (s : Store) : Prop :=
  ∀ key, (s.records.filter (fun r => r.filename == key)).length ≤ 1

/-- Store states reachable by the repository's DB utilities starting from
a freshly initialised database. -/
inductive Reachable : Store → Prop
  | init : Reachable emptyStore
  | save (s : Store) (fn hv : String) :
      Reachable s → Reachable (save_fingerprint s fn hv)
  | del (s : Store) (fn : String) :
      Reachable s → Reachable (delete_fingerprint s fn).1

theorem updateFirst_map_filename (l : List FPRecord) (fn hv : String) :
    (updateFirst l fn hv).map FPRecord.filename = l.map FPRecord.filename := by
  induction l with
  | nil => rfl
  | cons r rs ih =>
      by_cases h : r.filename == fn
      · simp [updateFirst, h]
      · simp [updateFirst, h, ih]

theorem updateFirst_length (l : List FPRecord) (fn hv : String) :
    (updateFirst l fn hv).length = l.length := by
  have := congrArg List.length (updateFirst_map_filename l fn hv)
  simpa using this

theorem removeFirst_sublist (l : List FPRecord) (fn : String) :
    List.Sublist (removeFirst l fn) l := by
  induction l with
  | nil => exact List.Sublist.refl _
  | cons r rs ih =>
      by_cases h : r.filename == fn
      · simp only [removeFirst, if_pos h]
        exact List.Sublist.cons r (List.Sublist.refl rs)
      · simp only [removeFirst, if_neg h]
        exact List.Sublist.cons₂ r ih

theorem Inv_save (s : Store) (fn hv : String) (h : Inv s) :
    Inv (save_fingerprint s fn hv) := by
  unfold save_fingerprint
  cases hex : s.records.any (fun r => r.filename == fn) with
  | true => simpa [Inv, updateFirst_map_filename] using h
  | false =>
      have hnot : fn ∉ s.records.map FPRecord.filename := by
        intro hmem
        rw [List.mem_map] at hmem
        obtain ⟨r, hr, hrfn⟩ := hmem
        have : s.records.any (fun r => r.filename == fn) = true :=
          List.any_eq_true.mpr ⟨r, hr, by simp [hrfn]⟩
        rw [hex] at this
        exact Bool.false_ne_true this
      simp only [Bool.false_eq_true, if_false, Inv, List.map_append,
        List.map_cons, List.map_nil]
      rw [List.nodup_append]
      refine ⟨h, List.nodup_singleton _, ?_⟩
      intro a ha hb
      simp only [List.mem_singleton] at hb
      subst hb
      exact hnot ha

theorem Inv_delete (s : Store) (fn : String) (h : Inv s) :
    Inv (delete_fingerprint s fn).1 := by
  unfold delete_fingerprint
  cases hex : s.records.any (fun r => r.filename == fn) with
  | true =>
      simp only [if_true]
      exact List.Nodup.sublist (List.Sublist.map _ (removeFirst_sublist _ _)) h
  | false =>
      simpa using h

theorem Reachable_Inv (s : Store) (h : Reachable s) : Inv s := by
  induction h with
  | init => simp [Inv, emptyStore]
  | save s fn hv _ ih => exact Inv_save s fn hv ih
  | del s fn _ ih => exact Inv_delete s fn ih

theorem nodup_filter_length_le (l : List FPRecord) (key : String)
    (h : (l.map FPRecord.filename).Nodup) :
    (l.filter (fun r => r.filename == key)).length ≤ 1 := by
  induction l with
  | nil => simp
  | cons r rs ih =>
      simp only [List.map_cons, List.nodup_cons] at h
      by_cases hr : r.filename == key
      · have hk : rs.filter (fun x => x.filename == key) = [] := by
          rw [List.filter_eq_nil_iff]
          intro x hx hxk
          apply h.1
          rw [List.mem_map]
          refine ⟨x, hx, ?_⟩
          have h1 : x.filename = key := by simpa using hxk
          have h2 : r.filename = key := by simpa using hr
          rw [h1, h2]
        simp [List.filter_cons, hr, hk]
      · simpa [List.filter_cons, hr] using ih h.2

theorem Inv_AtMostOne (s : Store) (h : Inv s) : AtMostOne s :=
  fun key => nodup_filter_length_le s.records key h

/-- After updating key `fn` (present, unique) the rows filtered by `fn`
hold exactly the new hash. -/
theorem updateFirst_filter (l : List FPRecord) (fn hv : String)
    (hnd : (l.map FPRecord.filename).Nodup)
    (hmem : ∃ r ∈ l, r.filename = fn) :
    ((updateFirst l fn hv).filter (fun r => r.filename == fn)).map
      FPRecord.hash_value = [hv] := by
  induction l with
  | nil => simp at hmem
  | cons r rs ih =>
      simp only [List.map_cons, List.nodup_cons] at hnd
      by_cases hr : r.filename == fn
      · have hrfn : r.filename = fn := by simpa using hr
        have hk : rs.filter (fun x => x.filename == fn) = [] := by
          rw [List.filter_eq_nil_iff]
          intro x hx hxk
          apply hnd.1
          rw [List.mem_map]
          refine ⟨x, hx, ?_⟩
          have h1 : x.filename = fn := by simpa using hxk
          rw [h1, hrfn]
        simp [updateFirst, hr, List.filter_cons, hk]
      · have hmem2 : ∃ x ∈ rs, x.filename = fn := by
          obtain ⟨x, hx, hxfn⟩ := hmem
          rcases List.mem_cons.mp hx with h1 | h1
          · exfalso; apply hr; subst h1; simp [hxfn]
          · exact ⟨x, h1, hxfn⟩
        simpa [updateFirst, hr, List.filter_cons] using ih hnd.2 hmem2

/-- Updating a present key keeps it present. -/
theorem updateFirst_any (l : List FPRecord) (fn hv : String)
    (h : l.any (fun r => r.filename == fn) = true) :
    (updateFirst l fn hv).any (fun r => r.filename == fn) = true := by
  induction l with
  | nil => simp at h
  | cons x xs ih =>
      by_cases hx : x.filename == fn
      · simp [updateFirst, hx]
      · rw [List.any_cons] at h
        simp only [hx, Bool.false_or] at h
        simp [updateFirst, hx, ih h]

/-- After `save_fingerprint s fn hv`, a record with filename `fn` exists. -/
theorem save_mem (s : Store) (fn hv : String) :
    (save_fingerprint s fn hv).records.any (fun r => r.filename == fn) = true := by
  unfold save_fingerprint
  cases hex : s.records.any (fun r => r.filename == fn) with
  | true =>
      simp only [if_true]
      exact updateFirst_any s.records fn hv hex
  | false =>
      simp only [Bool.false_eq_true, if_false, List.any_append]
      simp

/-- A JSON-like value as assembled by the endpoint. Floats carried in the
detector's `confidence` field are represented as rationals; no claim
depends on floating-point arithmetic, only on the value flowing through. -/
inductive Val where
  | vNull
  | vStr (s : String)
  | vRat (q : Rat)
  | vList (xs : List Val)
  | vDict (fields : List (String × Val))

/-- Outcome of the `detect_deepfake` call as observed by `analyze_image`:
the call raises (caught by the endpoint's `try`), returns an error dict
`{"error": msg}`, or returns `{file, prediction, confidence}`. -/
inductive DetectOutcome where
  | throws (msg : String)
  | errorDict (msg : String)
  | ok (file prediction : String) (confidence : Rat)

/-- Result of the endpoint: an `HTTPException` (status, detail) or a
`JSONResponse` (status, content dict in insertion order). -/
inductive AnalyzeResponse where
  | httpError (status : Nat) (detail : String)
  | jsonResp (status : Nat) (content : List (String × Val))

/-- The `search_result` dict embedded verbatim into the response. -/
def searchResultToVal : SearchResult → Val
  | .error m => .vDict [("error", .vStr m)]
  | .success q ms =>
      .vDict [("query", .vStr q), ("matches", .vList (ms.map Val.vStr))]

/-- Source `backend/main.py`, the match-normalisation block: take the `matches`
entry of the search dict (absent on the error shape), map the sentinel
`["No matches found"]` to `[]`, keep any other list, default to `[]`. -/
def normalize_matches : SearchResult → List String
  | .success _ ms => if ms == ["No matches found"] then [] else ms
  | .error _ => []

/-- Artifact paths resulting from the alert/takedown `try` block: both
paths on success, both `None` when the block raises. -/
def pathsOf : Except String (String × String) → Option String × Option String
  | .ok (a, t) => (some a, some t)
  | .error _ => (none, none)

/-- Render an optional path (`None` becomes JSON null). -/
def optStrVal : Option String → Val
  | some s => .vStr s
  | none => .vNull

/-- The per-request environment of `analyze_image`: outcomes of the
effectful steps, resolved to values so the handler's control flow can be
replayed as a function. -/
structure RequestEnv where
  /-- Whether `file.filename` is non-empty. -/
  has_filename : Bool
  /-- The unique name `_safe_filename` produced for this request. -/
  safe_name : String
  /-- Outcome of `_save_upload_to_disk`. -/
  save_upload : Except String Unit
  /-- The uploaded file's content as seen by the image decoder. -/
  img : ImageInput
  /-- Exception raised by `db.save_fingerprint`, if any. The handler's
  `try/except` only logs it, so it never influences the response. -/
  save_fp_exn : Option String
  /-- Exception raised inside the dataset-search call, if any. -/
  search_exn : Option String
  /-- Whether the dataset folder exists. -/
  dataset_exists : Bool
  /-- The `os.listdir` enumeration of the dataset folder (regular files). -/
  dataset_listing : List (String × ImageInput)
  /-- Outcome of the `detect_deepfake` call. -/
  detect : DetectOutcome
  /-- Outcome of `generate_alert`/`generate_takedown_request` as a
  function of the normalised match list passed to them. -/
  alertGen : List String → Except String (String × String)

/-- STEP 2 of the handler: the dataset-search call inside its `try`; an
exception becomes the `{"error": "Dataset search failed: ..."}` dict. The
query path passed to the search is the saved upload, whose basename is
`safe_name`. -/
def searchStage (sexn : Option String) (safeName : String) (img : ImageInput)
    (datasetExists : Bool) (folder : String)
    (listing : List (String × ImageInput)) : SearchResult :=
  match sexn with
  | some e => SearchResult.error ("Dataset search failed: " ++ e)
  | none => search_image_in_dataset safeName img datasetExists folder listing

/-- Source `backend/main.py`, `analyze_image`: validate the filename, save the
upload, fingerprint (HTTP 500 on an `Error`-prefixed result), attempt the
DB save (failure only logged), search the dataset (exception converted to
an error dict), normalise matches, run detection (failure or error dict
returns a single-field 500 error response), generate artifacts (failure
nulls both paths), and assemble the 200 response. -/
def analyze_image (env : RequestEnv) (folder : String) : AnalyzeResponse :=
  if !env.has_filename then .httpError 400 "No filename provided."
  else
    match env.save_upload with
    | .error e => .httpError 500 ("Failed to save uploaded file: " ++ e)
    | .ok _ =>
      let fingerprint := gfpStr env.img
      if strStartsWith fingerprint "Error" then .httpError 500 fingerprint
      else
        let search_result :=
          searchStage env.search_exn env.safe_name env.img
            env.dataset_exists folder env.dataset_listing
        let matches_list := normalize_matches search_result
        match env.detect with
        | .throws e =>
            .jsonResp 500 [("error", .vStr ("Deepfake detection failed: " ++ e))]
        | .errorDict e => .jsonResp 500 [("error", .vStr e)]
        | .ok dfile pred conf =>
            let paths := pathsOf (env.alertGen matches_list)
            .jsonResp 200
              [("file", .vStr env.safe_name),
               ("fingerprint", .vStr fingerprint),
               ("search_result", searchResultToVal search_result),
               ("deepfake_result",
                 .vDict [("file", .vStr dfile), ("prediction", .vStr pred),
                         ("confidence", .vRat conf)]),
               ("alert_file", optStrVal paths.1),
               ("takedown_request", optStrVal paths.2)]

theorem gfpStr_valid (p : Bytes) : gfpStr (ImageInput.valid p) = sha256hex p := rfl

/-- When the dataset folder is missing, the search returns the error
dict, whatever the listing. -/
theorem search_missing_folder (qn folder : String) (p : Bytes)
    (listing : List (String × ImageInput)) :
    search_image_in_dataset qn (ImageInput.valid p) false folder listing
      = SearchResult.error ("Dataset folder \x27" ++ folder ++ "\x27 not found.") := by
  simp only [search_image_in_dataset, gfpStr_valid, sha256hex_not_contains_Error]
  rfl

/-- When no dataset file has the query's digest, the search succeeds with
the sentinel list, never with the empty list. -/
theorem search_no_match (qn folder : String) (p : Bytes)
    (listing : List (String × ImageInput))
    (h : listing.filter (fun e => gfpStr e.2 == sha256hex p) = []) :
    search_image_in_dataset qn (ImageInput.valid p) true folder listing
      = SearchResult.success qn ["No matches found"] := by
  simp only [search_image_in_dataset, gfpStr_valid, sha256hex_not_contains_Error, h]
  rfl

/-- When the dataset files matching the query's digest are exactly one
file named `X`, the search succeeds with `[X]`. -/
theorem search_single_match (qn folder X : String) (p : Bytes)
    (listing : List (String × ImageInput))
    (h : (listing.filter (fun e => gfpStr e.2 == sha256hex p)).map
        (fun e => e.1) = [X]) :
    search_image_in_dataset qn (ImageInput.valid p) true folder listing
      = SearchResult.success qn [X] := by
  simp only [search_image_in_dataset, gfpStr_valid, sha256hex_not_contains_Error, h]
  rfl

/-- C1. The claim states that a failing decode yields a distinct tagged
outcome (`DecodeError`). In the source, `generate_fingerprint` with the
default `raise_error=False` (as every caller uses it) instead RETURNS the
error as an ordinary string on the same channel as a successful digest:
at the concrete undecodable input below the result is `Except.ok` (a
normal Python `return`), not a tagged error. -/
theorem C1_claim_counterexample :
    generate_fingerprint (ImageInput.invalid "cannot identify image file") false
        = Except.ok ("Error generating fingerprint: " ++ "cannot identify image file")
    ∧ (generate_fingerprint
        (ImageInput.invalid "cannot identify image file") false).isOk = true :=
  ⟨rfl, rfl⟩

/-- C1 (amended). With `raise_error=False` a decode failure is returned
in-band as the string `"Error generating fingerprint: <msg>"` rather than
as a distinct tagged outcome; that string is however never equal to any
digest produced on the success path, and with `raise_error=True` the
failure is a raised exception (tagged `Except.error`). -/
theorem C1_amended_thm : ∀ (msg : String) (bs : Bytes),
    generate_fingerprint (ImageInput.invalid msg) false
        = Except.ok ("Error generating fingerprint: " ++ msg)
    ∧ generate_fingerprint (ImageInput.invalid msg) true = Except.error msg
    ∧ sha256hex bs ≠ "Error generating fingerprint: " ++ msg
    ∧ generate_fingerprint (ImageInput.valid bs) false
        = Except.ok (sha256hex bs) := by
  intro msg bs
  exact ⟨rfl, rfl, sha256hex_ne_errString bs msg, rfl⟩

/-- C8. The fingerprint operation is deterministic: two invocations on
equal inputs yield identical results (for either value of the
`raise_error` flag, and for the returned string form). -/
theorem C8_determinism : ∀ (b b2 : ImageInput) (r : Bool), b = b2 →
    generate_fingerprint b r = generate_fingerprint b2 r
    ∧ gfpStr b = gfpStr b2 := by
  intro b b2 r h
  subst h
  exact ⟨rfl, rfl⟩

theorem C8_determinism_witness :
    generate_fingerprint (ImageInput.valid [0, 1, 2]) false
        = generate_fingerprint (ImageInput.valid [0, 1, 2]) false
    ∧ gfpStr (ImageInput.valid [0, 1, 2]) = gfpStr (ImageInput.valid [0, 1, 2]) :=
  C8_determinism (ImageInput.valid [0, 1, 2]) (ImageInput.valid [0, 1, 2]) false rfl

/-- C9. With `raise_error` left at its default `False`,
`generate_fingerprint` is total: every input yields a normal return
(`Except.ok`), and every internal failure is returned as a string
beginning with `"Error generating fingerprint: "`. -/
theorem C9_total_noraise : ∀ (img : ImageInput),
    (generate_fingerprint img false).isOk = true
    ∧ (∀ m, generate_fingerprint (ImageInput.invalid m) false
        = Except.ok ("Error generating fingerprint: " ++ m))
    ∧ (∀ m, strStartsWith ("Error generating fingerprint: " ++ m)
        "Error generating fingerprint: " = true) := by
  intro img
  refine ⟨?_, fun m => rfl, fun m => errString_startsWith_full m⟩
  cases img <;> rfl

/-- C2. The claim states that with no byte-identical copy in the dataset
the exact-match search returns the empty list. In the source, an empty
match list is replaced by the sentinel `["No matches found"]`: at the
concrete input below (decodable query, existing but empty dataset
folder) the result is the sentinel, not `[]`. -/
theorem C2_claim_counterexample :
    search_image_in_dataset "query.png" (ImageInput.valid [1]) true "dataset" []
        = SearchResult.success "query.png" ["No matches found"]
    ∧ SearchResult.success "query.png" ["No matches found"]
        ≠ SearchResult.success "query.png" [] := by
  exact ⟨rfl, by decide⟩

/-- C2 (amended). If the dataset files whose digest equals the query's
are exactly one file named `X`, the search returns `[X]`; if no file's
digest matches, it returns the sentinel `["No matches found"]` rather
than `[]`; a missing dataset folder yields the error dict, which is a
distinct outcome from every success. -/
theorem C2_amended_thm : ∀ (qn folder X : String) (p : Bytes)
    (listing1 listing2 : List (String × ImageInput)),
    (listing1.filter (fun e => gfpStr e.2 == sha256hex p)).map (fun e => e.1) = [X] →
    listing2.filter (fun e => gfpStr e.2 == sha256hex p) = [] →
    search_image_in_dataset qn (ImageInput.valid p) true folder listing1
        = SearchResult.success qn [X]
    ∧ search_image_in_dataset qn (ImageInput.valid p) true folder listing2
        = SearchResult.success qn ["No matches found"]
    ∧ search_image_in_dataset qn (ImageInput.valid p) false folder listing2
        = SearchResult.error ("Dataset folder \x27" ++ folder ++ "\x27 not found.")
    ∧ (∀ m q2 ms, SearchResult.error m ≠ SearchResult.success q2 ms) := by
  intro qn folder X p listing1 listing2 h1 h2
  exact ⟨search_single_match qn folder X p listing1 h1,
    search_no_match qn folder p listing2 h2,
    search_missing_folder qn folder p listing2,
    fun m q2 ms h => SearchResult.noConfusion h⟩

theorem C2_amended_thm_witness :
    search_image_in_dataset "query.png" (ImageInput.valid [1]) true "dataset"
        [("copy.png", ImageInput.valid [1])]
        = SearchResult.success "query.png" ["copy.png"]
    ∧ search_image_in_dataset "query.png" (ImageInput.valid [1]) true "dataset" []
        = SearchResult.success "query.png" ["No matches found"]
    ∧ search_image_in_dataset "query.png" (ImageInput.valid [1]) false "dataset" []
        = SearchResult.error ("Dataset folder \x27" ++ "dataset" ++ "\x27 not found.")
    ∧ (∀ m q2 ms, SearchResult.error m ≠ SearchResult.success q2 ms) :=
  C2_amended_thm "query.png" "dataset" "copy.png" [1]
    [("copy.png", ImageInput.valid [1])] [] rfl rfl

/-- Membership of a candidate's result entry in `search_similar` is
equivalent to its Hamming distance being within the threshold. -/
theorem search_similar_mem (q t : Nat) (cands : List FPEntry) (c : FPEntry)
    (hc : c ∈ cands) :
    mkSimMatch q c ∈ search_similar q t cands
      ↔ hamming q c.hash_value ≤ t := by
  constructor
  · intro h
    rw [search_similar, List.mem_map] at h
    obtain ⟨a, ha, hfa⟩ := h
    rw [List.mem_filter] at ha
    have hdist : hamming q a.hash_value ≤ t := of_decide_eq_true ha.2
    have hh : a.hash_value = c.hash_value := congrArg SimMatch.hash hfa
    rwa [hh] at hdist
  · intro h
    rw [search_similar, List.mem_map]
    refine ⟨c, ?_, rfl⟩
    rw [List.mem_filter]
    exact ⟨hc, decide_eq_true h⟩

/-- C4. A candidate is included in the similarity-search result exactly
when the Hamming distance `popcount(q XOR h)` is at most the threshold,
and with threshold `0` exactly when its hash equals the query hash. -/
theorem C4_hamming_bound : ∀ (q t : Nat) (cands : List FPEntry) (c : FPEntry),
    c ∈ cands →
    ((mkSimMatch q c ∈ search_similar q t cands)
        ↔ popcount (Nat.xor q c.hash_value) ≤ t)
    ∧ ((mkSimMatch q c ∈ search_similar q 0 cands) ↔ c.hash_value = q) := by
  intro q t cands c hc
  constructor
  · exact search_similar_mem q t cands c hc
  · rw [search_similar_mem q 0 cands c hc]
    rw [Nat.le_zero, hamming, popcount_eq_zero_iff]
    constructor
    · intro h0
      exact (Nat.xor_eq_zero.mp h0).symm
    · intro h0
      exact Nat.xor_eq_zero.mpr h0.symm

theorem C4_hamming_bound_witness :
    ((mkSimMatch 5 (FPEntry.mk "a.png" 4) ∈ search_similar 5 1 [FPEntry.mk "a.png" 4])
        ↔ popcount (Nat.xor 5 (FPEntry.mk "a.png" 4).hash_value) ≤ 1)
    ∧ ((mkSimMatch 5 (FPEntry.mk "a.png" 4) ∈ search_similar 5 0 [FPEntry.mk "a.png" 4])
        ↔ (FPEntry.mk "a.png" 4).hash_value = 5) :=
  C4_hamming_bound 5 1 [FPEntry.mk "a.png" 4] (FPEntry.mk "a.png" 4)
    (List.mem_singleton.mpr rfl)

/-- Lexicographic byte-order comparison of character lists (the order
`sorted()` would use on filenames). -/
def lexLe : List Char → List Char → Bool
  | [], _ => true
  | _ :: _, [] => false
  | a :: as, b :: bs => if a == b then lexLe as bs else decide (a.toNat < b.toNat)

/-- Lexicographic order on strings. -/
def strLe (a b : String) : Bool := lexLe a.data b.data

/-- C6. The claim states a deterministic sorted order (lexical for exact
matches; ascending distance for similar matches). In the source neither
search sorts: the exact search reports matches in `os.listdir`
enumeration order and the similarity search in candidate-iteration
order. At the concrete inputs below the exact search returns
`["b.png", "a.png"]` (not lexically ordered) and the similarity search
returns distances `[3, 1]` (not ascending). -/
theorem C6_claim_counterexample :
    search_image_in_dataset "q.png" (ImageInput.valid [5]) true "dataset"
        [("b.png", ImageInput.valid [5]), ("a.png", ImageInput.valid [5])]
      = SearchResult.success "q.png" ["b.png", "a.png"]
    ∧ ¬ List.Pairwise (fun x y => strLe x y = true) (["b.png", "a.png"] : List String)
    ∧ (search_similar 0 5 [FPEntry.mk "f1" 7, FPEntry.mk "f2" 1]).map
        SimMatch.distance = [3, 1]
    ∧ ¬ List.Pairwise (fun x y => x ≤ y) ([3, 1] : List Nat) := by
  refine ⟨rfl, ?_, rfl, ?_⟩
  · intro h
    have := List.rel_of_pairwise_cons h (List.mem_singleton.mpr rfl)
    exact absurd this (by decide)
  · intro h
    have := List.rel_of_pairwise_cons h (List.mem_singleton.mpr rfl)
    omega

/-- C6 (amended). Both searches preserve the underlying enumeration
order instead of sorting: a successful exact search returns either the
sentinel or a subsequence of the `os.listdir` listing in listing order,
and the similarity search returns a subsequence of the candidate list in
candidate order. -/
theorem C6_amended_thm : ∀ (qn folder : String) (img : ImageInput)
    (ex : Bool) (listing : List (String × ImageInput)) (ms : List String)
    (q t : Nat) (cands : List FPEntry),
    search_image_in_dataset qn img ex folder listing
        = SearchResult.success qn ms →
    ((ms = ["No matches found"] ∨ List.Sublist ms (listing.map Prod.fst))
     ∧ List.Sublist ((search_similar q t cands).map SimMatch.filename)
         (cands.map FPEntry.filename)) := by
  intro qn folder img ex listing ms q t cands h
  constructor
  · rw [search_image_in_dataset] at h
    split at h
    · exact absurd h (by simp)
    · split at h
      · exact absurd h (by simp)
      · rw [SearchResult.success.injEq] at h
        rw [← h.2]
        by_cases he : ((listing.filter (fun e => gfpStr e.2 == gfpStr img)).map
            (fun e => e.1)).isEmpty = true
        · left
          rw [if_pos he]
        · right
          rw [if_neg he]
          exact List.Sublist.map Prod.fst
            (List.filter_sublist listing) |>.trans (by rfl)
  · rw [search_similar, List.map_map]
    have : (SimMatch.filename ∘ fun fp =>
        (⟨fp.filename, fp.hash_value, hamming q fp.hash_value⟩ : SimMatch))
          = FPEntry.filename := rfl
    rw [this]
    exact List.Sublist.map FPEntry.filename (List.filter_sublist cands)

theorem C6_amended_thm_witness :
    ((["b.png", "a.png"] = ["No matches found"]
        ∨ List.Sublist (["b.png", "a.png"] : List String)
            ([("b.png", ImageInput.valid [5]),
              ("a.png", ImageInput.valid [5])].map Prod.fst))
     ∧ List.Sublist
         ((search_similar 0 5 [FPEntry.mk "f1" 7, FPEntry.mk "f2" 1]).map
             SimMatch.filename)
         ([FPEntry.mk "f1" 7, FPEntry.mk "f2" 1].map FPEntry.filename)) :=
  C6_amended_thm "q.png" "dataset" (ImageInput.valid [5]) true
    [("b.png", ImageInput.valid [5]), ("a.png", ImageInput.valid [5])]
    ["b.png", "a.png"] 0 5 [FPEntry.mk "f1" 7, FPEntry.mk "f2" 1] rfl

/-- When the key already exists, `save_fingerprint` takes the
`IntegrityError` recovery path: update in place. -/
theorem save_fingerprint_of_mem (s : Store) (k h : String)
    (hmem : s.records.any (fun r => r.filename == k) = true) :
    save_fingerprint s k h = { s with records := updateFirst s.records k h } := by
  simp [save_fingerprint, hmem]

/-- C3. Upserting `k` with `h1` then `h2` leaves exactly one stored
record for `k`, holding `h2`; the second upsert does not change the row
count; the uniqueness invariant is preserved; and every store state
reachable through the repository's DB operations has at most one record
per key. -/
theorem C3_upsert : ∀ (s : Store) (k h1 h2 : String), Inv s →
    ((save_fingerprint (save_fingerprint s k h1) k h2).records.filter
        (fun r => r.filename == k)).map FPRecord.hash_value = [h2]
    ∧ count_fingerprints (save_fingerprint (save_fingerprint s k h1) k h2)
        = count_fingerprints (save_fingerprint s k h1)
    ∧ Inv (save_fingerprint (save_fingerprint s k h1) k h2)
    ∧ (∀ s0, Reachable s0 → AtMostOne s0) := by
  intro s k h1 h2 hInv
  have hInv1 : Inv (save_fingerprint s k h1) := Inv_save s k h1 hInv
  have hmem : (save_fingerprint s k h1).records.any
      (fun r => r.filename == k) = true := save_mem s k h1
  have hmem2 : ∃ r ∈ (save_fingerprint s k h1).records, r.filename = k := by
    rw [List.any_eq_true] at hmem
    obtain ⟨r, hr, hrk⟩ := hmem
    exact ⟨r, hr, by simpa using hrk⟩
  have hsave2 := save_fingerprint_of_mem (save_fingerprint s k h1) k h2 hmem
  refine ⟨?_, ?_, Inv_save _ k h2 hInv1, fun s0 h0 => Inv_AtMostOne s0 (Reachable_Inv s0 h0)⟩
  · rw [hsave2]
    exact updateFirst_filter (save_fingerprint s k h1).records k h2 hInv1 hmem2
  · rw [hsave2]
    exact updateFirst_length (save_fingerprint s k h1).records k h2

theorem C3_upsert_witness :
    ((save_fingerprint (save_fingerprint emptyStore "a.jpg" "h1") "a.jpg" "h2").records.filter
        (fun r => r.filename == "a.jpg")).map FPRecord.hash_value = ["h2"]
    ∧ count_fingerprints
        (save_fingerprint (save_fingerprint emptyStore "a.jpg" "h1") "a.jpg" "h2")
        = count_fingerprints (save_fingerprint emptyStore "a.jpg" "h1")
    ∧ Inv (save_fingerprint (save_fingerprint emptyStore "a.jpg" "h1") "a.jpg" "h2")
    ∧ (∀ s0, Reachable s0 → AtMostOne s0) :=
  C3_upsert emptyStore "a.jpg" "h1" "h2" (by simp [Inv, emptyStore])

/-- Status code of a response. -/
def statusOf : AnalyzeResponse → Nat
  | .httpError s _ => s
  | .jsonResp s _ => s

/-- Content dict of a JSON response (empty for an HTTP exception). -/
def contentOf : AnalyzeResponse → List (String × Val)
  | .httpError _ _ => []
  | .jsonResp _ c => c

/-- No JSON response the handler can produce contains a `stage_errors`
or a `similar_matches` entry: neither key is ever written. -/
theorem analyze_no_stage_errors (env : RequestEnv) (folder : String)
    (st : Nat) (c : List (String × Val))
    (h : analyze_image env folder = AnalyzeResponse.jsonResp st c) :
    (c.lookup "stage_errors").isNone = true
    ∧ (c.lookup "similar_matches").isNone = true := by
  simp only [analyze_image] at h
  split at h
  · exact AnalyzeResponse.noConfusion h
  · split at h
    · exact AnalyzeResponse.noConfusion h
    · split at h
      · exact AnalyzeResponse.noConfusion h
      · split at h
        · injection h with h1 h2
          subst h2
          exact ⟨rfl, rfl⟩
        · injection h with h1 h2
          subst h2
          exact ⟨rfl, rfl⟩
        · injection h with h1 h2
          subst h2
          exact ⟨rfl, rfl⟩

/-- A fixed concrete request in which persisting the fingerprint fails
(`save_fp_exn` is set) while every other stage succeeds. -/
def envC5 : RequestEnv :=
  ⟨true, "up_q.png", Except.ok (), ImageInput.valid [1],
   some "database is locked", none, true, [],
   DetectOutcome.ok "up_q.png" "REAL" 1, fun _ => Except.error "io error"⟩

/-- C5. The claim states that on a store failure the response carries
similar matches and a `StoreError` entry in `stage_errors`. At the
concrete request `envC5`, where the DB save raises, the pipeline does
complete with status 200 and carries the search result and the verdict,
but the response has no `stage_errors` entry and no `similar_matches`
entry at all (the handler only logs the store failure, and nothing in the
repository ever computes similar matches for a request). -/
theorem C5_claim_counterexample :
    statusOf (analyze_image envC5 "dataset") = 200
    ∧ ((contentOf (analyze_image envC5 "dataset")).lookup "stage_errors").isNone = true
    ∧ ((contentOf (analyze_image envC5 "dataset")).lookup "similar_matches").isNone = true
    ∧ ((contentOf (analyze_image envC5 "dataset")).lookup "search_result").isSome = true
    ∧ ((contentOf (analyze_image envC5 "dataset")).lookup "deepfake_result").isSome = true :=
  ⟨rfl, rfl, rfl, rfl, rfl⟩

/-- C5 (amended). A store failure is isolated but silent: the response is
identical to the one produced when the save succeeds (so the pipeline
still completes, with the exact-match search result and the detection
verdict), and no response ever carries a `stage_errors` or
`similar_matches` entry recording the failure. -/
theorem C5_amended_thm : ∀ (hf : Bool) (sn : String) (su : Except String Unit)
    (img : ImageInput) (x sexn : Option String) (dex : Bool)
    (listing : List (String × ImageInput)) (det : DetectOutcome)
    (aG : List String → Except String (String × String))
    (folder dfile pred : String) (conf : Rat),
    strStartsWith (gfpStr img) "Error" = false →
    (analyze_image ⟨hf, sn, su, img, x, sexn, dex, listing, det, aG⟩ folder
        = analyze_image ⟨hf, sn, su, img, none, sexn, dex, listing, det, aG⟩ folder)
    ∧ (∀ st c, analyze_image ⟨hf, sn, su, img, x, sexn, dex, listing, det, aG⟩ folder
          = AnalyzeResponse.jsonResp st c →
        (c.lookup "stage_errors").isNone = true
        ∧ (c.lookup "similar_matches").isNone = true)
    ∧ analyze_image ⟨true, sn, Except.ok (), img, x, sexn, dex, listing,
          DetectOutcome.ok dfile pred conf, aG⟩ folder
        = AnalyzeResponse.jsonResp 200
            [("file", Val.vStr sn),
             ("fingerprint", Val.vStr (gfpStr img)),
             ("search_result", searchResultToVal
                 (searchStage sexn sn img dex folder listing)),
             ("deepfake_result", Val.vDict [("file", Val.vStr dfile),
                 ("prediction", Val.vStr pred), ("confidence", Val.vRat conf)]),
             ("alert_file", optStrVal (pathsOf (aG (normalize_matches
                 (searchStage sexn sn img dex folder listing)))).1),
             ("takedown_request", optStrVal (pathsOf (aG (normalize_matches
                 (searchStage sexn sn img dex folder listing)))).2)] := by
  intro hf sn su img x sexn dex listing det aG folder dfile pred conf herr
  refine ⟨rfl, fun st c h => analyze_no_stage_errors _ _ st c h, ?_⟩
  simp [analyze_image, herr]

theorem C5_amended_thm_witness :
    (analyze_image ⟨true, "q.png", Except.ok (), ImageInput.valid [2],
          some "disk full", none, true, [],
          DetectOutcome.ok "q.png" "REAL" 1, fun _ => Except.error "io"⟩ "dataset"
        = analyze_image ⟨true, "q.png", Except.ok (), ImageInput.valid [2],
          none, none, true, [],
          DetectOutcome.ok "q.png" "REAL" 1, fun _ => Except.error "io"⟩ "dataset")
    ∧ (∀ st c, analyze_image ⟨true, "q.png", Except.ok (), ImageInput.valid [2],
          some "disk full", none, true, [],
          DetectOutcome.ok "q.png" "REAL" 1, fun _ => Except.error "io"⟩ "dataset"
          = AnalyzeResponse.jsonResp st c →
        (c.lookup "stage_errors").isNone = true
        ∧ (c.lookup "similar_matches").isNone = true)
    ∧ analyze_image ⟨true, "q.png", Except.ok (), ImageInput.valid [2],
          some "disk full", none, true, [],
          DetectOutcome.ok "q.png" "REAL" 1, fun _ => Except.error "io"⟩ "dataset"
        = AnalyzeResponse.jsonResp 200
            [("file", Val.vStr "q.png"),
             ("fingerprint", Val.vStr (gfpStr (ImageInput.valid [2]))),
             ("search_result", searchResultToVal
                 (searchStage none "q.png" (ImageInput.valid [2]) true "dataset" [])),
             ("deepfake_result", Val.vDict [("file", Val.vStr "q.png"),
                 ("prediction", Val.vStr "REAL"), ("confidence", Val.vRat 1)]),
             ("alert_file", optStrVal (pathsOf
                 ((fun _ => Except.error "io" :
                    List String → Except String (String × String)) (normalize_matches
                 (searchStage none "q.png" (ImageInput.valid [2]) true "dataset" [])))).1),
             ("takedown_request", optStrVal (pathsOf
                 ((fun _ => Except.error "io" :
                    List String → Except String (String × String)) (normalize_matches
                 (searchStage none "q.png" (ImageInput.valid [2]) true "dataset" [])))).2)] :=
  C5_amended_thm true "q.png" (Except.ok ()) (ImageInput.valid [2])
    (some "disk full") none true [] (DetectOutcome.ok "q.png" "REAL" 1)
    (fun _ => Except.error "io") "dataset" "q.png" "REAL" 1 rfl

/-- C7. When the classifier call throws, the response is a single fatal
error: HTTP 500 with a one-entry content dict whose only key is `error`
(naming the failed detection stage), and with no verdict
(`deepfake_result`), no match fields (`search_result`), and no artifact
fields (`alert_file`, `takedown_request`) populated. -/
theorem C7_classifier_fatal : ∀ (sn : String) (img : ImageInput)
    (x sexn : Option String) (dex : Bool)
    (listing : List (String × ImageInput))
    (aG : List String → Except String (String × String)) (folder e : String),
    strStartsWith (gfpStr img) "Error" = false →
    analyze_image ⟨true, sn, Except.ok (), img, x, sexn, dex, listing,
        DetectOutcome.throws e, aG⟩ folder
      = AnalyzeResponse.jsonResp 500
          [("error", Val.vStr ("Deepfake detection failed: " ++ e))]
    ∧ ([("error", Val.vStr ("Deepfake detection failed: " ++ e))] :
        List (String × Val)).length = 1
    ∧ ([("error", Val.vStr ("Deepfake detection failed: " ++ e))] :
        List (String × Val)).lookup "deepfake_result" = none
    ∧ ([("error", Val.vStr ("Deepfake detection failed: " ++ e))] :
        List (String × Val)).lookup "search_result" = none
    ∧ ([("error", Val.vStr ("Deepfake detection failed: " ++ e))] :
        List (String × Val)).lookup "alert_file" = none
    ∧ ([("error", Val.vStr ("Deepfake detection failed: " ++ e))] :
        List (String × Val)).lookup "takedown_request" = none
    ∧ ([("error", Val.vStr ("Deepfake detection failed: " ++ e))] :
        List (String × Val)).lookup "fingerprint" = none := by
  intro sn img x sexn dex listing aG folder e herr
  refine ⟨?_, rfl, rfl, rfl, rfl, rfl, rfl⟩
  simp [analyze_image, herr]

theorem C7_classifier_fatal_witness :
    analyze_image ⟨true, "q.png", Except.ok (), ImageInput.valid [3], none, none,
        true, [], DetectOutcome.throws "CUDA out of memory",
        fun _ => Except.ok ("a", "t")⟩ "dataset"
      = AnalyzeResponse.jsonResp 500
          [("error", Val.vStr ("Deepfake detection failed: " ++ "CUDA out of memory"))]
    ∧ ([("error", Val.vStr ("Deepfake detection failed: " ++ "CUDA out of memory"))] :
        List (String × Val)).length = 1
    ∧ ([("error", Val.vStr ("Deepfake detection failed: " ++ "CUDA out of memory"))] :
        List (String × Val)).lookup "deepfake_result" = none
    ∧ ([("error", Val.vStr ("Deepfake detection failed: " ++ "CUDA out of memory"))] :
        List (String × Val)).lookup "search_result" = none
    ∧ ([("error", Val.vStr ("Deepfake detection failed: " ++ "CUDA out of memory"))] :
        List (String × Val)).lookup "alert_file" = none
    ∧ ([("error", Val.vStr ("Deepfake detection failed: " ++ "CUDA out of memory"))] :
        List (String × Val)).lookup "takedown_request" = none
    ∧ ([("error", Val.vStr ("Deepfake detection failed: " ++ "CUDA out of memory"))] :
        List (String × Val)).lookup "fingerprint" = none :=
  C7_classifier_fatal "q.png" (ImageInput.valid [3]) none none true []
    (fun _ => Except.ok ("a", "t")) "dataset" "CUDA out of memory" rfl

/-- C10. With no byte-identical dataset copy (and a decodable query and
existing dataset folder), `search_image_in_dataset` returns the sentinel
`["No matches found"]`, never the empty list; the handler exposes that
search dict verbatim in the response's `search_result` field while its
normalisation block maps the sentinel to `[]`, which is what the artifact
generators receive. -/
theorem C10_sentinel : ∀ (sn folder dfile pred : String) (conf : Rat)
    (p : Bytes) (listing : List (String × ImageInput)) (x : Option String)
    (aG : List String → Except String (String × String)),
    listing.filter (fun e => gfpStr e.2 == sha256hex p) = [] →
    search_image_in_dataset sn (ImageInput.valid p) true folder listing
        = SearchResult.success sn ["No matches found"]
    ∧ (["No matches found"] ≠ ([] : List String))
    ∧ normalize_matches (SearchResult.success sn ["No matches found"]) = []
    ∧ analyze_image ⟨true, sn, Except.ok (), ImageInput.valid p, x, none, true,
          listing, DetectOutcome.ok dfile pred conf, aG⟩ folder
        = AnalyzeResponse.jsonResp 200
            [("file", Val.vStr sn),
             ("fingerprint", Val.vStr (sha256hex p)),
             ("search_result", searchResultToVal
                 (SearchResult.success sn ["No matches found"])),
             ("deepfake_result", Val.vDict [("file", Val.vStr dfile),
                 ("prediction", Val.vStr pred), ("confidence", Val.vRat conf)]),
             ("alert_file", optStrVal (pathsOf (aG [])).1),
             ("takedown_request", optStrVal (pathsOf (aG [])).2)] := by
  intro sn folder dfile pred conf p listing x aG h
  have hs := search_no_match sn folder p listing h
  refine ⟨hs, by decide, rfl, ?_⟩
  simp only [analyze_image, searchStage, gfpStr_valid,
    sha256hex_not_startsWith_Error, Bool.not_true, Bool.false_eq_true,
    if_false, hs]
  rfl

theorem C10_sentinel_witness :
    search_image_in_dataset "u.png" (ImageInput.valid [1]) true "dataset"
        [("x.png", ImageInput.valid [9])]
        = SearchResult.success "u.png" ["No matches found"]
    ∧ (["No matches found"] ≠ ([] : List String))
    ∧ normalize_matches (SearchResult.success "u.png" ["No matches found"]) = []
    ∧ analyze_image ⟨true, "u.png", Except.ok (), ImageInput.valid [1], none, none,
          true, [("x.png", ImageInput.valid [9])],
          DetectOutcome.ok "u.png" "FAKE" 1, fun _ => Except.error "nope"⟩ "dataset"
        = AnalyzeResponse.jsonResp 200
            [("file", Val.vStr "u.png"),
             ("fingerprint", Val.vStr (sha256hex [1])),
             ("search_result", searchResultToVal
                 (SearchResult.success "u.png" ["No matches found"])),
             ("deepfake_result", Val.vDict [("file", Val.vStr "u.png"),
                 ("prediction", Val.vStr "FAKE"), ("confidence", Val.vRat 1)]),
             ("alert_file", optStrVal (pathsOf
                 ((fun _ => Except.error "nope" :
                    List String → Except String (String × String)) [])).1),
             ("takedown_request", optStrVal (pathsOf
                 ((fun _ => Except.error "nope" :
                    List String → Except String (String × String)) [])).2)] :=
  C10_sentinel "u.png" "dataset" "u.png" "FAKE" 1 [1]
    [("x.png", ImageInput.valid [9])] none (fun _ => Except.error "nope") rfl

end ProtectAI
